import Mathlib

/-!
# Verification of the meeting-storage recording pipeline

A shallow embedding, in Lean 4, of the core of the `meetingstorage`
repository: the high-performance `RecordingManager` (frame ingest,
lifecycle state machine, stop/encode orchestration) and the producer-side
capture queue from the client component.  JavaScript numbers involved in
timestamp arithmetic are modelled as rationals (`ℚ`, milliseconds for
timestamps, seconds for derived durations); counters are naturals;
filesystem and external-encoder effects are passed in explicitly as
environment records.  Display-only fields (`averageFPS` strings, wall-clock
`Date` fields, log output) are not modelled.
-/

set_option autoImplicit false

namespace MeetingStorage

/-- Lifecycle states of a recording session
(`RecordingManager.js`: the `status` field). -/
inductive Status where
  | initializing
  | recording
  | paused
  | stopping
  | completed
  | failed
deriving DecidableEq, Repr

/-- The string stored in `status`, used when the code interpolates the
status into an error message. -/
def Status.name : Status → String
  | .initializing => "initializing"
  | .recording => "recording"
  | .paused => "paused"
  | .stopping => "stopping"
  | .completed => "completed"
  | .failed => "failed"

/-- One entry of `recording.frameFiles` (`processFrame`, lines 979-985):
the persisted-frame manifest record.  `timestamp` is the sender-supplied
capture time in milliseconds. -/
structure FrameInfo where
  path : String
  timestamp : ℚ
  frameNumber : ℕ
  size : ℕ
deriving DecidableEq, Repr

/-- One entry of `recording.audioFiles` (`addAudioChunk`, lines 949-953). -/
structure AudioFile where
  path : String
  timestamp : ℚ
  index : ℤ
deriving DecidableEq, Repr

/-- The statistics block of a recording (`startUIRecording`, lines 825-836).
`averageFPS` (a display string) and `startTime`/`lastFrameTime` wall-clock
bookkeeping are modelled only insofar as claims touch them. -/
structure RecordingStats where
  framesReceived : ℕ
  framesProcessed : ℕ
  framesWritten : ℕ
  audioChunksReceived : ℕ
  droppedFrames : ℕ
  errors : ℕ
  firstFrameTime : Option ℚ
  lastFrameTime : Option ℚ
deriving DecidableEq, Repr

/-- A recording session object (`startUIRecording`, lines 801-841).
`optionsFps` and `optionsWithAudio` are the `options.fps` /
`options.withAudio` fields; storage paths are kept only through the
`path` strings inside the manifests. -/
structure Recording where
  roomId : String
  status : Status
  optionsFps : ℤ
  optionsWithAudio : Bool
  stats : RecordingStats
  frameFiles : List FrameInfo
  audioFiles : List AudioFile
  error : Option String
deriving DecidableEq, Repr

/-! ## Encode-rate computation (C1)

`encodeFramesToVideo`, lines 1181-1194: starting from the configured
`recording.options.fps`, when more than one frame is present and the
timestamp span is positive, the rate becomes
`min(Math.round(frames / durationSeconds), 60)`.  JavaScript
`Math.round x = ⌊x + 1/2⌋`, which is exactly Mathlib's `round` on `ℚ`. -/

/-- The effective encode rate computed at the start of
`encodeFramesToVideo` from the valid frame list. -/
def computeEncodeFPS (optionsFps : ℤ) (frameInfos : List FrameInfo) : ℤ :=
  if 1 < frameInfos.length then
    match frameInfos.head?, frameInfos.getLast? with
    | some first, some last =>
      let duration : ℚ := (last.timestamp - first.timestamp) / 1000
      if 0 < duration then
        min (round ((frameInfos.length : ℚ) / duration)) 60
      else optionsFps
    | _, _ => optionsFps
  else optionsFps

/-- C1: for at least two frames with a positive timestamp span, the
effective encode rate is `min(round(frameCount / totalSpanSeconds), 60)`
with `totalSpanSeconds = (lastTimestamp - firstTimestamp)/1000`; with a
zero span or at most one frame, it is the configured target fps. -/
theorem C1_effective_encode_rate (optionsFps : ℤ) (frameInfos : List FrameInfo)
    (first last : FrameInfo)
    (hf : frameInfos.head? = some first) (hl : frameInfos.getLast? = some last) :
    (2 ≤ frameInfos.length → first.timestamp < last.timestamp →
        computeEncodeFPS optionsFps frameInfos
          = min (round ((frameInfos.length : ℚ)
              / ((last.timestamp - first.timestamp) / 1000))) 60)
    ∧ (first.timestamp = last.timestamp →
        computeEncodeFPS optionsFps frameInfos = optionsFps)
    ∧ (frameInfos.length ≤ 1 →
        computeEncodeFPS optionsFps frameInfos = optionsFps) := by
  unfold computeEncodeFPS
  rw [hf, hl]
  refine ⟨?_, ?_, ?_⟩
  · intro hlen hspan
    have h1 : 1 < frameInfos.length := by omega
    simp only [h1, if_true]
    have hd : (0 : ℚ) < (last.timestamp - first.timestamp) / 1000 := by
      have : (0 : ℚ) < last.timestamp - first.timestamp := by linarith
      positivity
    simp only [hd, if_true]
  · intro heq
    have hd : ¬ ((0 : ℚ) < (last.timestamp - first.timestamp) / 1000) := by
      rw [heq]
      simp
    by_cases h1 : 1 < frameInfos.length
    · simp only [h1, if_true, hd, if_false]
    · simp only [h1, if_false]
  · intro hlen
    have h1 : ¬ (1 < frameInfos.length) := by omega
    simp only [h1, if_false]

/-- Concrete instantiation of `C1_effective_encode_rate`: the spec's own
example scaled down — 3 frames spanning 1.0 s give rate
`min(round(3/1), 60) = 3`; and with all three timestamps equal the rate
falls back to the configured 30. -/
theorem C1_effective_encode_rate_witness :
    computeEncodeFPS 30
        [⟨"f0", 0, 0, 10⟩, ⟨"f1", 500, 1, 10⟩, ⟨"f2", 1000, 2, 10⟩] = 3
    ∧ computeEncodeFPS 30
        [⟨"g0", 400, 0, 10⟩, ⟨"g1", 400, 1, 10⟩, ⟨"g2", 400, 2, 10⟩] = 30 := by
  constructor
  · have h := C1_effective_encode_rate 30
      [⟨"f0", 0, 0, 10⟩, ⟨"f1", 500, 1, 10⟩, ⟨"f2", 1000, 2, 10⟩]
      ⟨"f0", 0, 0, 10⟩ ⟨"f2", 1000, 2, 10⟩ rfl rfl
    have h2 := h.1 (by decide) (by norm_num)
    rw [h2]
    norm_num
  · have h := C1_effective_encode_rate 30
      [⟨"g0", 400, 0, 10⟩, ⟨"g1", 400, 1, 10⟩, ⟨"g2", 400, 2, 10⟩]
      ⟨"g0", 400, 0, 10⟩ ⟨"g2", 400, 2, 10⟩ rfl rfl
    exact h.2.1 rfl

/-! ## Timing manifest construction (C2)

`encodeFramesToVideo`, lines 1198-1225: the ffmpeg concat list.  The loop
pushes, per frame, a `file` line and a `duration` line — for a frame with
a successor the duration is `max((next.timestamp - curr.timestamp)/1000,
1/encodeFPS)`, for the last frame it is `1/encodeFPS` — and afterwards the
last frame's `file` line is pushed once more (the format's required
termination).  The `toFixed(6)` decimal rendering is abstracted: entries
carry the exact rational. -/

/-- One line of the generated `all_frames.txt` concat list. -/
inductive ConcatEntry where
  | file (path : String)
  | duration (seconds : ℚ)
deriving DecidableEq, Repr

/-- `durSec` for the frame at position `i` (lines 1207-1214): `next` is
`frameInfos[i + 1]`, absent for the last frame. -/
def frameDuration (encodeFPS : ℚ) (curr : FrameInfo) (next : Option FrameInfo) : ℚ :=
  match next with
  | some n => max ((n.timestamp - curr.timestamp) / 1000) (1 / encodeFPS)
  | none => 1 / encodeFPS

/-- The loop of lines 1202-1218: one `file` line and one `duration` line
per frame. -/
def concatBody (encodeFPS : ℚ) : List FrameInfo → List ConcatEntry
  | [] => []
  | curr :: rest =>
      ConcatEntry.file curr.path
        :: ConcatEntry.duration (frameDuration encodeFPS curr rest.head?)
        :: concatBody encodeFPS rest

/-- The full concat list: the loop's output followed by the terminating
re-emission of the last frame's `file` line (lines 1221-1223). -/
def buildConcatList (encodeFPS : ℚ) (frameInfos : List FrameInfo) : List ConcatEntry :=
  concatBody encodeFPS frameInfos ++
    (match frameInfos.getLast? with
     | some last => [ConcatEntry.file last.path]
     | none => [])

/-- The consecutive-pair portion of the manifest, stated as the claim
words it: for each consecutive pair, the current frame's path followed by
`max((next.timestamp - curr.timestamp)/1000, 1/rate)`. -/
def pairEntries (encodeFPS : ℚ) (frameInfos : List FrameInfo) : List ConcatEntry :=
  (frameInfos.zip frameInfos.tail).flatMap fun p =>
    [ConcatEntry.file p.1.path,
     ConcatEntry.duration (max ((p.2.timestamp - p.1.timestamp) / 1000) (1 / encodeFPS))]

/-- Helper: unfolding `concatBody` over a cons-cons list. -/
theorem concatBody_cons_cons (encodeFPS : ℚ) (f g : FrameInfo) (rest : List FrameInfo) :
    concatBody encodeFPS (f :: g :: rest)
      = ConcatEntry.file f.path
          :: ConcatEntry.duration (max ((g.timestamp - f.timestamp) / 1000) (1 / encodeFPS))
          :: concatBody encodeFPS (g :: rest) := by
  simp [concatBody, frameDuration]

/-- Helper: the loop output is the pair entries followed by the last
frame's own `file`/`duration` lines. -/
theorem concatBody_eq_pairEntries (encodeFPS : ℚ) (frameInfos : List FrameInfo)
    (last : FrameInfo) (hl : frameInfos.getLast? = some last) :
    concatBody encodeFPS frameInfos
      = pairEntries encodeFPS frameInfos
          ++ [ConcatEntry.file last.path, ConcatEntry.duration (1 / encodeFPS)] := by
  induction frameInfos with
  | nil => simp at hl
  | cons f rest ih =>
    cases rest with
    | nil =>
      simp only [List.getLast?_singleton, Option.some.injEq] at hl
      subst hl
      simp [concatBody, frameDuration, pairEntries]
    | cons g rest2 =>
      have hl2 : (g :: rest2).getLast? = some last := by
        rw [← hl]
        exact List.getLast?_cons_cons.symm
      rw [concatBody_cons_cons, ih hl2]
      simp [pairEntries]

/-- C2: for a non-empty frame list the concat manifest is exactly the
consecutive-pair `file`/`duration` entries, then the last frame's `file`
line with its `1/rate` duration, then the last frame's path re-emitted
once more; in particular the terminating entry is that bare `file` line
(no duration follows it). -/
theorem C2_timing_manifest (encodeFPS : ℚ) (frameInfos : List FrameInfo)
    (last : FrameInfo) (hl : frameInfos.getLast? = some last) :
    buildConcatList encodeFPS frameInfos
      = pairEntries encodeFPS frameInfos
          ++ [ConcatEntry.file last.path, ConcatEntry.duration (1 / encodeFPS),
              ConcatEntry.file last.path]
    ∧ (buildConcatList encodeFPS frameInfos).getLast?
        = some (ConcatEntry.file last.path) := by
  have hbody := concatBody_eq_pairEntries encodeFPS frameInfos last hl
  constructor
  · simp [buildConcatList, hl, hbody]
  · simp [buildConcatList, hl]

/-- Concrete instantiation of `C2_timing_manifest`: two frames 400 ms
apart at rate 30 give `file f0 / duration max(0.4, 1/30) / file f1 /
duration 1/30 / file f1`, terminated by the bare `file f1` line. -/
theorem C2_timing_manifest_witness :
    buildConcatList 30 [⟨"f0", 1000, 0, 10⟩, ⟨"f1", 1400, 1, 10⟩]
      = pairEntries 30 [⟨"f0", 1000, 0, 10⟩, ⟨"f1", 1400, 1, 10⟩]
          ++ [ConcatEntry.file ("f1"), ConcatEntry.duration (1 / 30),
              ConcatEntry.file ("f1")]
    ∧ (buildConcatList 30 [⟨"f0", 1000, 0, 10⟩, ⟨"f1", 1400, 1, 10⟩]).getLast?
        = some (ConcatEntry.file ("f1")) :=
  C2_timing_manifest 30 [⟨"f0", 1000, 0, 10⟩, ⟨"f1", 1400, 1, 10⟩]
    ⟨"f1", 1400, 1, 10⟩ rfl

/-! ## Audio/video sync offset (C3)

`encodeFramesToVideo`, lines 1278-1283: `audioOffsetSec =
(firstAudioTs - firstFrameTs) / 1000` (both timestamps in milliseconds).
Lines 1303-1314: the merged-audio ffmpeg input receives `-itsoffset
offset` (delay) only when `offset > 0.05`, `-ss -offset` (head trim) only
when `offset < -0.05`, and no extra option otherwise. -/

/-- The computed sync offset in seconds (line 1281). -/
def audioOffsetSec (firstAudioTs firstFrameTs : ℚ) : ℚ :=
  (firstAudioTs - firstFrameTs) / 1000

/-- The input option attached to the merged audio track at mux time. -/
inductive AudioInputOption where
  | itsoffset (seconds : ℚ)
  | seekTrim (seconds : ℚ)
  | plain
deriving DecidableEq, Repr

/-- The branch of lines 1306-1314 choosing how the audio input is
synchronized. -/
def audioSyncOption (offset : ℚ) : AudioInputOption :=
  if 1 / 20 < offset then AudioInputOption.itsoffset offset
  else if offset < -(1 / 20) then AudioInputOption.seekTrim (-offset)
  else AudioInputOption.plain

/-- C3 as stated is false: a first audio timestamp 30 ms after the first
frame timestamp yields the positive offset 0.03 s, yet the audio input is
neither delayed nor trimmed — the code's 0.05 s dead zone passes it
through unadjusted. -/
theorem C3_positive_offset_not_delayed_counterexample :
    0 < audioOffsetSec 1030 1000
    ∧ audioSyncOption (audioOffsetSec 1030 1000) = AudioInputOption.plain
    ∧ audioSyncOption (audioOffsetSec 1030 1000)
        ≠ AudioInputOption.itsoffset (audioOffsetSec 1030 1000) := by
  have hplain : audioSyncOption (audioOffsetSec 1030 1000) = AudioInputOption.plain := by
    norm_num [audioOffsetSec, audioSyncOption]
  refine ⟨by norm_num [audioOffsetSec], hplain, ?_⟩
  rw [hplain]
  exact fun hcontra => AudioInputOption.noConfusion hcontra

/-- C3 amended: the sync offset is `(firstAudioTs - firstFrameTs)/1000`
seconds; the audio input is delayed by the offset only when it exceeds
0.05 s, its head is trimmed by `-offset` only when the offset is below
-0.05 s, and offsets within the ±0.05 s band are applied with no
adjustment. -/
theorem C3_audio_sync_offset (firstAudioTs firstFrameTs : ℚ) :
    audioOffsetSec firstAudioTs firstFrameTs = (firstAudioTs - firstFrameTs) / 1000
    ∧ (∀ off : ℚ,
        (1 / 20 < off → audioSyncOption off = AudioInputOption.itsoffset off)
        ∧ (off < -(1 / 20) → audioSyncOption off = AudioInputOption.seekTrim (-off))
        ∧ (-(1 / 20) ≤ off → off ≤ 1 / 20 → audioSyncOption off = AudioInputOption.plain)) := by
  refine ⟨rfl, fun off => ⟨?_, ?_, ?_⟩⟩
  · intro h
    unfold audioSyncOption
    rw [if_pos h]
  · intro h
    unfold audioSyncOption
    rw [if_neg (by linarith), if_pos h]
  · intro h1 h2
    unfold audioSyncOption
    rw [if_neg (by linarith), if_neg (by linarith)]

/-- Concrete instantiation of `C3_audio_sync_offset` at the spec's own
examples: audio 200 ms after the first frame gives offset +0.2 s and a
delay of 0.2 s; audio 200 ms before gives offset -0.2 s and a head trim
of 0.2 s. -/
theorem C3_audio_sync_offset_witness :
    audioOffsetSec 1200 1000 = 1 / 5
    ∧ audioSyncOption (1 / 5) = AudioInputOption.itsoffset (1 / 5)
    ∧ audioOffsetSec 800 1000 = -(1 / 5)
    ∧ audioSyncOption (-(1 / 5)) = AudioInputOption.seekTrim (1 / 5) := by
  have hpos := (C3_audio_sync_offset 1200 1000).2 (1 / 5)
  have hneg := (C3_audio_sync_offset 800 1000).2 (-(1 / 5))
  refine ⟨by norm_num [audioOffsetSec], hpos.1 (by norm_num), by norm_num [audioOffsetSec], ?_⟩
  have h := hneg.2.1 (by norm_num)
  rw [h]
  norm_num

/-! ## Producer-side capture queue (C4)

Client capture component, `startFrameCapture` (lines 452-459): before a
newly captured frame is pushed, if `frameQueueRef.current.length >=
MAX_QUEUE_SIZE` (300), `splice(0, 30)` removes the 30 oldest entries and
the `droppedFrames` statistic grows by the number of removed entries. -/

/-- A producer-side queue entry (`FrameData`): the payload blob is
abstracted to its size, the diagnostic metadata to the client frame
counter. -/
structure CaptureFrame where
  dataSize : ℕ
  timestamp : ℚ
  frameNumber : ℕ
deriving DecidableEq, Repr

/-- The producer state the enqueue step touches: the pending-frame queue
and the dropped-frame statistic. -/
structure CaptureQueueState where
  frameQueue : List CaptureFrame
  droppedFrames : ℕ
deriving DecidableEq, Repr

/-- The queue bound: `MAX_QUEUE_SIZE = 300`. -/
def MAX_QUEUE_SIZE : ℕ := 300

/-- The enqueue step of `startFrameCapture` (lines 452-459): batched
eviction of the 30 oldest entries when the bound is reached, then the
push of the new frame. -/
def enqueueCapturedFrame (s : CaptureQueueState) (frame : CaptureFrame) : CaptureQueueState :=
  if MAX_QUEUE_SIZE ≤ s.frameQueue.length then
    let dropped := s.frameQueue.take 30
    { frameQueue := s.frameQueue.drop 30 ++ [frame],
      droppedFrames := s.droppedFrames + dropped.length }
  else
    { frameQueue := s.frameQueue ++ [frame], droppedFrames := s.droppedFrames }

/-- C4: when the queue holds at least 300 entries, enqueueing evicts
exactly the 30 oldest entries in one batch before appending the new frame
and raises the dropped-frame counter by exactly 30; below the bound
nothing is evicted and the counter is unchanged. -/
theorem C4_capture_queue_eviction (s : CaptureQueueState) (frame : CaptureFrame) :
    (300 ≤ s.frameQueue.length →
        (enqueueCapturedFrame s frame).frameQueue = s.frameQueue.drop 30 ++ [frame]
        ∧ (enqueueCapturedFrame s frame).droppedFrames = s.droppedFrames + 30)
    ∧ (s.frameQueue.length < 300 →
        (enqueueCapturedFrame s frame).frameQueue = s.frameQueue ++ [frame]
        ∧ (enqueueCapturedFrame s frame).droppedFrames = s.droppedFrames) := by
  constructor
  · intro h
    have hb : MAX_QUEUE_SIZE ≤ s.frameQueue.length := h
    have htake : (s.frameQueue.take 30).length = 30 := by
      rw [List.length_take]
      omega
    simp [enqueueCapturedFrame, hb, htake]
  · intro h
    have hb : ¬ (MAX_QUEUE_SIZE ≤ s.frameQueue.length) := by
      simp only [MAX_QUEUE_SIZE]
      omega
    simp [enqueueCapturedFrame, hb]

/-- Concrete instantiation of `C4_capture_queue_eviction`: the spec's
301st-frame scenario — a full queue of 300 entries evicts exactly 30 and
the counter rises from 0 to 30, leaving 271 entries. -/
theorem C4_capture_queue_eviction_witness :
    (enqueueCapturedFrame
        ⟨List.replicate 300 ⟨9, 0, 0⟩, 0⟩ ⟨9, 10000, 300⟩).frameQueue
      = (List.replicate 300 (⟨9, 0, 0⟩ : CaptureFrame)).drop 30 ++ [⟨9, 10000, 300⟩]
    ∧ (enqueueCapturedFrame
        ⟨List.replicate 300 ⟨9, 0, 0⟩, 0⟩ ⟨9, 10000, 300⟩).droppedFrames = 0 + 30
    ∧ (enqueueCapturedFrame
        ⟨List.replicate 300 ⟨9, 0, 0⟩, 0⟩ ⟨9, 10000, 300⟩).frameQueue.length = 271 := by
  have h := (C4_capture_queue_eviction ⟨List.replicate 300 ⟨9, 0, 0⟩, 0⟩ ⟨9, 10000, 300⟩).1
    (by rw [List.length_replicate])
  refine ⟨h.1, h.2, ?_⟩
  rw [h.1, List.length_append, List.length_drop, List.length_replicate,
    List.length_singleton]

/-! ## Server-side frame ingest (C8, C9)

`addUIFrame` (lines 860-894) guards on the session status, bumps
`framesReceived`, runs `processFrame` (lines 963-1013), and converts a
processing failure into a non-fatal `{success:false, error}`
acknowledgement while bumping `errors` and `droppedFrames`.
`processFrame` itself also bumps `droppedFrames` in its own catch block
before rethrowing.  The binary-payload check and the durable write are
the two failure points; they are passed in as an environment. -/

/-- Environment of one frame-persistence attempt: whether the payload is
a `Buffer`, whether/why the durable write fails, and the payload size. -/
structure FrameWriteEnv where
  isBuffer : Bool
  writeError : Option String
  bufferLength : ℕ
deriving DecidableEq, Repr

/-- `String(n).padStart(6, '0')`. -/
def pad6 (n : ℕ) : String :=
  let s := toString n
  String.mk (List.replicate (6 - s.length) (Char.ofNat 48)) ++ s

/-- The frame filename `frame_%06d.webp` (line 973). -/
def frameFilename (n : ℕ) : String :=
  "frame_" ++ pad6 n ++ ".webp"

/-- Error message of the payload-format check (line 969). -/
def invalidBufferMsg : String := "Invalid frame buffer format"

/-- `timestamp || Date.now()` (line 981): a missing or zero (falsy)
sender timestamp is replaced by the arrival clock. -/
def jsOrNow (timestamp : Option ℚ) (now : ℚ) : ℚ :=
  match timestamp with
  | some t => if t = 0 then now else t
  | none => now

/-- Result of one `processFrame` run: the updated recording, the updated
manager-level `frameCounter`, whether the frame was persisted, and the
error message otherwise. -/
structure ProcessFrameResult where
  recording : Recording
  frameCounter : ℕ
  ok : Bool
  errMsg : Option String
deriving DecidableEq, Repr

/-- `processFrame` (lines 963-1013).  An invalid payload throws before
the counter is taken; a write failure throws after `frameCounter++`; both
are caught at line 1008 where `droppedFrames` is incremented and the
error rethrown.  On success the frame record is appended and
`framesWritten`/`firstFrameTime`/`lastFrameTime` updated. -/
def processFrame (env : FrameWriteEnv) (framesDir : String) (rec : Recording)
    (frameCounter : ℕ) (timestamp : Option ℚ) (now : ℚ) : ProcessFrameResult :=
  if ¬ env.isBuffer then
    { recording := { rec with stats :=
        { rec.stats with droppedFrames := rec.stats.droppedFrames + 1 } },
      frameCounter := frameCounter, ok := false, errMsg := some invalidBufferMsg }
  else
    let frameNumber := frameCounter
    let framePath := framesDir ++ "/" ++ frameFilename frameNumber
    match env.writeError with
    | some msg =>
      { recording := { rec with stats :=
          { rec.stats with droppedFrames := rec.stats.droppedFrames + 1 } },
        frameCounter := frameCounter + 1, ok := false, errMsg := some msg }
    | none =>
      let ts := jsOrNow timestamp now
      let frameInfo : FrameInfo := ⟨framePath, ts, frameNumber, env.bufferLength⟩
      let framesWritten := rec.stats.framesWritten + 1
      { recording := { rec with
          frameFiles := rec.frameFiles ++ [frameInfo],
          stats := { rec.stats with
            framesWritten := framesWritten,
            firstFrameTime :=
              if framesWritten = 1 then some ts else rec.stats.firstFrameTime,
            lastFrameTime := some ts } },
        frameCounter := frameCounter + 1, ok := true, errMsg := none }

/-- The acknowledgement of one `ui-frame` call: a thrown error (caught by
the socket handler and acked as failure), a success ack, or the non-fatal
`{success:false, error}` ack of lines 887-892. -/
inductive FrameAck where
  | thrown (msg : String)
  | accepted (framesWritten framesReceived : ℕ)
  | failed (error : String) (framesWritten : ℕ)
deriving DecidableEq, Repr

/-- Outcome of one `addUIFrame` call: the manager's active recording and
frame counter afterwards, plus the acknowledgement. -/
structure AddFrameOutcome where
  activeRecording : Option Recording
  frameCounter : ℕ
  ack : FrameAck
deriving DecidableEq, Repr

/-- Error message of the missing-session guard (line 862). -/
def noActiveRecordingMsg : String := "No active recording"

/-- Error message of the status guard (line 868). -/
def cannotAddFrameMsg (s : Status) : String :=
  "Cannot add frame - recording status is: " ++ s.name

/-- The error message `addUIFrame` forwards when `processFrame` fails. -/
def processFrameErrMsg (env : FrameWriteEnv) : String :=
  if ¬ env.isBuffer then invalidBufferMsg else env.writeError.getD ("")

/-- `addUIFrame` (lines 860-894). -/
def addUIFrame (env : FrameWriteEnv) (framesDir : String)
    (active : Option Recording) (frameCounter : ℕ)
    (timestamp : Option ℚ) (now : ℚ) : AddFrameOutcome :=
  match active with
  | none =>
    { activeRecording := none, frameCounter := frameCounter,
      ack := FrameAck.thrown noActiveRecordingMsg }
  | some rec =>
    if rec.status ≠ Status.recording ∧ rec.status ≠ Status.stopping then
      { activeRecording := some rec, frameCounter := frameCounter,
        ack := FrameAck.thrown (cannotAddFrameMsg rec.status) }
    else
      let rec1 := { rec with stats :=
        { rec.stats with framesReceived := rec.stats.framesReceived + 1 } }
      let r := processFrame env framesDir rec1 frameCounter timestamp now
      if r.ok then
        { activeRecording := some r.recording, frameCounter := r.frameCounter,
          ack := FrameAck.accepted r.recording.stats.framesWritten
                   r.recording.stats.framesReceived }
      else
        let rec2 := { r.recording with stats := { r.recording.stats with
            errors := r.recording.stats.errors + 1,
            droppedFrames := r.recording.stats.droppedFrames + 1 } }
        { activeRecording := some rec2, frameCounter := r.frameCounter,
          ack := FrameAck.failed (r.errMsg.getD ("")) rec2.stats.framesWritten }

/-- A paused session with one persisted frame, used as the concrete
paused-ingest scenario. -/
def examplePausedRecording : Recording :=
  { roomId := "room1", status := Status.paused, optionsFps := 30,
    optionsWithAudio := true,
    stats := ⟨5, 0, 5, 2, 0, 0, some 100, some 266⟩,
    frameFiles := [⟨"frames/frame_000000.webp", 100, 0, 9⟩],
    audioFiles := [], error := none }

/-- C8 as stated is false: a well-formed frame submitted while the
session status is `paused` is rejected by the ingest status guard — the
call throws `Cannot add frame - recording status is: paused` and neither
processes the frame nor changes the session. -/
theorem C8_paused_frame_rejected_counterexample :
    (addUIFrame ⟨true, none, 9⟩ ("frames") (some examplePausedRecording)
        1 (some 300) 2000).ack
      = FrameAck.thrown ("Cannot add frame - recording status is: paused")
    ∧ (addUIFrame ⟨true, none, 9⟩ ("frames") (some examplePausedRecording)
        1 (some 300) 2000).activeRecording = some examplePausedRecording
    ∧ (addUIFrame ⟨true, none, 9⟩ ("frames") (some examplePausedRecording)
        1 (some 300) 2000).ack
        ≠ FrameAck.accepted examplePausedRecording.stats.framesWritten
            (examplePausedRecording.stats.framesReceived + 1) := by
  refine ⟨rfl, rfl, ?_⟩
  intro hcontra
  have h : (addUIFrame ⟨true, none, 9⟩ ("frames") (some examplePausedRecording)
      1 (some 300) 2000).ack
      = FrameAck.thrown ("Cannot add frame - recording status is: paused") := rfl
  rw [h] at hcontra
  exact FrameAck.noConfusion hcontra

/-- C8 amended: frames are accepted only while the status is `recording`
or `stopping`; a frame arriving while the status is `paused` is rejected
with the status-guard error and leaves the session and frame counter
unchanged. -/
theorem C8_paused_frame_guard (env : FrameWriteEnv) (framesDir : String)
    (rec : Recording) (frameCounter : ℕ) (timestamp : Option ℚ) (now : ℚ)
    (h : rec.status = Status.paused) :
    addUIFrame env framesDir (some rec) frameCounter timestamp now
      = { activeRecording := some rec, frameCounter := frameCounter,
          ack := FrameAck.thrown (cannotAddFrameMsg Status.paused) } := by
  have hcond : rec.status ≠ Status.recording ∧ rec.status ≠ Status.stopping := by
    rw [h]
    exact ⟨fun hc => Status.noConfusion hc, fun hc => Status.noConfusion hc⟩
  simp [addUIFrame, hcond, h]

/-- Concrete instantiation of `C8_paused_frame_guard` at the paused
example session. -/
theorem C8_paused_frame_guard_witness :
    addUIFrame ⟨true, none, 12⟩ ("frames") (some examplePausedRecording)
        1 (some 500) 3000
      = { activeRecording := some examplePausedRecording, frameCounter := 1,
          ack := FrameAck.thrown (cannotAddFrameMsg Status.paused) } :=
  C8_paused_frame_guard ⟨true, none, 12⟩ ("frames") examplePausedRecording
    1 (some 500) 3000 rfl

/-- A live session with zeroed statistics and one persisted frame, used
as the concrete failing-frame scenario. -/
def exampleLiveRecording : Recording :=
  { roomId := "room1", status := Status.recording, optionsFps := 30,
    optionsWithAudio := true,
    stats := ⟨1, 0, 1, 0, 0, 0, some 100, some 100⟩,
    frameFiles := [⟨"frames/frame_000000.webp", 100, 0, 9⟩],
    audioFiles := [], error := none }

/-- C9 as stated is false in one respect: a frame whose persistence fails
(here: invalid payload) raises `droppedFrames` by two, not one — once in
`processFrame`'s catch block (line 1010) and once more in `addUIFrame`'s
(line 885).  `errors` does rise by exactly one. -/
theorem C9_frame_failure_counterexample :
    ((addUIFrame ⟨false, none, 9⟩ ("frames") (some exampleLiveRecording)
        1 (some 300) 2000).activeRecording.map fun r => r.stats.droppedFrames)
      = some (exampleLiveRecording.stats.droppedFrames + 2)
    ∧ ((addUIFrame ⟨false, none, 9⟩ ("frames") (some exampleLiveRecording)
        1 (some 300) 2000).activeRecording.map fun r => r.stats.droppedFrames)
      ≠ some (exampleLiveRecording.stats.droppedFrames + 1)
    ∧ ((addUIFrame ⟨false, none, 9⟩ ("frames") (some exampleLiveRecording)
        1 (some 300) 2000).activeRecording.map fun r => r.stats.errors)
      = some (exampleLiveRecording.stats.errors + 1) := by
  refine ⟨rfl, ?_, rfl⟩
  intro hcontra
  simp [addUIFrame, processFrame, exampleLiveRecording] at hcontra

/-- C9 amended: a frame whose persistence fails leaves the session status
and the previously written manifest untouched, raises `errors` by exactly
one and `droppedFrames` by exactly two (the counter is incremented both
in `processFrame`'s catch block and in `addUIFrame`'s), raises
`framesReceived` by one, and is reported only through that call's
non-fatal `{success:false, error}` acknowledgement. -/
theorem C9_frame_failure_accounting (env : FrameWriteEnv) (framesDir : String)
    (rec : Recording) (frameCounter : ℕ) (timestamp : Option ℚ) (now : ℚ)
    (hstatus : rec.status = Status.recording ∨ rec.status = Status.stopping)
    (hfail : env.isBuffer = false ∨ env.writeError ≠ none) :
    addUIFrame env framesDir (some rec) frameCounter timestamp now
      = { activeRecording := some { rec with stats := { rec.stats with
            framesReceived := rec.stats.framesReceived + 1,
            errors := rec.stats.errors + 1,
            droppedFrames := rec.stats.droppedFrames + 2 } },
          frameCounter := if env.isBuffer then frameCounter + 1 else frameCounter,
          ack := FrameAck.failed (processFrameErrMsg env) rec.stats.framesWritten } := by
  have hguard : ¬ (rec.status ≠ Status.recording ∧ rec.status ≠ Status.stopping) := by
    rcases hstatus with h | h <;> rw [h] <;> intro hc <;>
      first
        | exact hc.1 rfl
        | exact hc.2 rfl
  rcases hb : env.isBuffer with _ | _
  · simp only [addUIFrame, hguard, if_neg, ite_false, processFrame, hb,
      Bool.not_false, Bool.false_eq_true, processFrameErrMsg]
    simp [processFrameErrMsg, hb, invalidBufferMsg]
  · rcases hw : env.writeError with _ | msg
    · exfalso
      rcases hfail with h | h
      · rw [hb] at h
        exact Bool.noConfusion h
      · exact h hw
    · simp only [addUIFrame, hguard, processFrame, hb, hw]
      simp [processFrameErrMsg, hb, hw]

/-- Concrete instantiation of `C9_frame_failure_accounting`: an invalid
payload on the live example session gives errors 0 → 1, droppedFrames
0 → 2 and a failed acknowledgement. -/
theorem C9_frame_failure_accounting_witness :
    addUIFrame ⟨false, none, 9⟩ ("frames") (some exampleLiveRecording)
        1 (some 300) 2000
      = { activeRecording := some { exampleLiveRecording with stats :=
            { exampleLiveRecording.stats with
              framesReceived := exampleLiveRecording.stats.framesReceived + 1,
              errors := exampleLiveRecording.stats.errors + 1,
              droppedFrames := exampleLiveRecording.stats.droppedFrames + 2 } },
          frameCounter := 1,
          ack := FrameAck.failed (processFrameErrMsg ⟨false, none, 9⟩)
                   exampleLiveRecording.stats.framesWritten } :=
  C9_frame_failure_accounting ⟨false, none, 9⟩ ("frames") exampleLiveRecording
    1 (some 300) 2000 (Or.inl rfl) (Or.inl rfl)

/-! ## Stop orchestration (C5, C6, C10)

`stopRecording` (lines 1039-1170), modelled from the point where an
active recording is at hand (lines 1081-1169; the preamble of lines
1046-1079 merely re-establishes `activeRecording` from the session map
when the field was lost and is outside every claim).  The filesystem and
the external encoder are passed in as an environment: the frames
directory's existence, its listing, a `stat` map from paths to sizes, and
whether the external encode succeeds.  Wall-clock bookkeeping
(`completedAt`, duration, `fileUrl`) and the best-effort thumbnail are
not modelled. -/

/-- Filesystem/encoder environment of one `stopRecording` run. -/
structure StopFS where
  framesDirExists : Bool
  framesDirListing : List String
  fileSize : String → Option ℕ
  encodeOk : Bool

/-- One invocation of `encodeFramesToVideo`: the valid frame records it
receives and the effective `withAudio` flag. -/
structure EncodeInvocation where
  frameInfos : List FrameInfo
  withAudio : Bool
deriving DecidableEq, Repr

/-- How a `stopRecording` call returns to its caller. -/
inductive StopResult where
  | thrown (msg : String)
  | returned (rec : Recording)
deriving DecidableEq, Repr

/-- The state left behind by one `stopRecording` call: the (mutated)
recording, the encode invocations it performed, and the call result. -/
structure StopOutcome where
  recording : Recording
  encodeInvocations : List EncodeInvocation
  result : StopResult
deriving DecidableEq, Repr

/-- Error message of the duplicate-stop guard (line 1093). -/
def alreadyStoppingMsg : String := "Recording is already being stopped"

/-- Error message of the missing-directory check (line 1108). -/
def framesDirMissingMsg : String := "Frames directory does not exist"

/-- Error message of the empty-listing check (line 1115). -/
def noFramesWrittenMsg : String := "No frames were written"

/-- Error message of the empty-valid-set check (line 1137). -/
def noValidFramesMsg : String := "No valid frame files found"

/-- Stand-in message for an external-encoder failure surfaced by
`encodeFramesToVideo`'s rejection. -/
def encodeErrorMsg : String := "FFmpeg error"

/-- JavaScript's `String.prototype.endsWith`, as a suffix check on the
character sequence. -/
def jsEndsWith (s suffix : String) : Bool :=
  List.isSuffixOf suffix.data s.data

/-- Stable insertion of a frame record into a frameNumber-sorted list. -/
def insertFrameInfo (f : FrameInfo) : List FrameInfo → List FrameInfo
  | [] => [f]
  | g :: rest =>
      if f.frameNumber ≤ g.frameNumber then f :: g :: rest
      else g :: insertFrameInfo f rest

/-- The in-place `sort((a, b) => a.frameNumber - b.frameNumber)` of line
1122, as a stable sort by `frameNumber`. -/
def sortByFrameNumber : List FrameInfo → List FrameInfo
  | [] => []
  | f :: rest => insertFrameInfo f (sortByFrameNumber rest)

/-- The per-record validity check of lines 1126-1134: the stored file
exists and has positive size. -/
def isValidFrameFile (fsEnv : StopFS) (fi : FrameInfo) : Bool :=
  match fsEnv.fileSize fi.path with
  | some sz => decide (0 < sz)
  | none => false

/-- The caller's `withAudio` after the override of lines 1084-1088:
forced to true when audio chunks are stored and the recording's own
`options.withAudio` is not false. -/
def effectiveWithAudio (rec : Recording) (withAudio : Bool) : Bool :=
  if withAudio = false ∧ rec.audioFiles ≠ [] ∧ rec.optionsWithAudio ≠ false then true
  else withAudio

/-- The audio gate inside `encodeFramesToVideo` (line 1234): audio is
merged (and, on success, muxed) iff the effective flag, the recording's
option, and a non-empty chunk list all hold. -/
def shouldProcessAudio (rec : Recording) (withAudio : Bool) : Bool :=
  withAudio && rec.optionsWithAudio && !rec.audioFiles.isEmpty

/-- `stopRecording` (lines 1081-1169) given the active recording. -/
def stopRecording (fsEnv : StopFS) (rec : Recording) (withAudio : Bool) : StopOutcome :=
  let wA := effectiveWithAudio rec withAudio
  if rec.status = Status.stopping then
    { recording := rec, encodeInvocations := [],
      result := StopResult.thrown alreadyStoppingMsg }
  else if rec.status = Status.completed then
    { recording := rec, encodeInvocations := [],
      result := StopResult.returned rec }
  else
    let rec1 := { rec with status := Status.stopping }
    if fsEnv.framesDirExists = false then
      { recording :=
          { rec1 with
              status := Status.failed,
              error := some framesDirMissingMsg },
        encodeInvocations := [], result := StopResult.thrown framesDirMissingMsg }
    else
      let webpFiles := fsEnv.framesDirListing.filter fun f => jsEndsWith f (".webp")
      if webpFiles = [] then
        { recording :=
            { rec1 with
                status := Status.failed,
                error := some noFramesWrittenMsg },
          encodeInvocations := [], result := StopResult.thrown noFramesWrittenMsg }
      else
        let sorted := sortByFrameNumber rec1.frameFiles
        let rec2 := { rec1 with frameFiles := sorted }
        let validFrameInfos := sorted.filter (isValidFrameFile fsEnv)
        if validFrameInfos = [] then
          { recording :=
              { rec2 with
                  status := Status.failed,
                  error := some noValidFramesMsg },
            encodeInvocations := [], result := StopResult.thrown noValidFramesMsg }
        else if fsEnv.encodeOk then
          let rec3 := { rec2 with status := Status.completed }
          { recording := rec3,
            encodeInvocations := [⟨validFrameInfos, wA⟩],
            result := StopResult.returned rec3 }
        else
          { recording :=
              { rec2 with
                  status := Status.failed,
                  error := some encodeErrorMsg },
            encodeInvocations := [⟨validFrameInfos, wA⟩],
            result := StopResult.thrown encodeErrorMsg }

/-- C5: a stop issued while the status is already `stopping` throws the
distinct already-stopping error, performs no encode invocation and leaves
the session untouched; a stop issued while the status is `completed`
returns the existing recording idempotently, again without encoding. -/
theorem C5_duplicate_stop (fsEnv : StopFS) (rec : Recording) (withAudio : Bool) :
    (rec.status = Status.stopping →
        stopRecording fsEnv rec withAudio
          = { recording := rec, encodeInvocations := [],
              result := StopResult.thrown alreadyStoppingMsg })
    ∧ (rec.status = Status.completed →
        stopRecording fsEnv rec withAudio
          = { recording := rec, encodeInvocations := [],
              result := StopResult.returned rec }) := by
  constructor
  · intro h
    simp [stopRecording, h]
  · intro h
    have hns : rec.status ≠ Status.stopping := by
      rw [h]
      exact fun hc => Status.noConfusion hc
    simp [stopRecording, h, hns]

/-- Concrete instantiation of `C5_duplicate_stop`: a stop on the
`stopping` example session throws and encodes nothing; a stop on its
`completed` variant returns it unchanged. -/
theorem C5_duplicate_stop_witness :
    stopRecording ⟨true, [], fun _ => none, true⟩
        { exampleLiveRecording with status := Status.stopping } true
      = { recording := { exampleLiveRecording with status := Status.stopping },
          encodeInvocations := [],
          result := StopResult.thrown alreadyStoppingMsg }
    ∧ stopRecording ⟨true, [], fun _ => none, true⟩
        { exampleLiveRecording with status := Status.completed } true
      = { recording := { exampleLiveRecording with status := Status.completed },
          encodeInvocations := [],
          result := StopResult.returned
            { exampleLiveRecording with status := Status.completed } } :=
  ⟨(C5_duplicate_stop ⟨true, [], fun _ => none, true⟩
      { exampleLiveRecording with status := Status.stopping } true).1 rfl,
   (C5_duplicate_stop ⟨true, [], fun _ => none, true⟩
      { exampleLiveRecording with status := Status.completed } true).2 rfl⟩

/-- C6: once a stop reaches the filtering step (status neither `stopping`
nor `completed`, frames directory present, some `.webp` file listed),
records whose stored file is missing or zero-length are filtered out of
the encode input — every record handed to the encoder passes the validity
check and the stop does not fail with the no-valid-frames error — while
an empty filtered set fails the stop with that error and moves the
session to `failed` with the error recorded. -/
theorem C6_frame_filtering (fsEnv : StopFS) (rec : Recording) (withAudio : Bool)
    (h1 : rec.status ≠ Status.stopping) (h2 : rec.status ≠ Status.completed)
    (hdir : fsEnv.framesDirExists = true)
    (hlist : fsEnv.framesDirListing.filter (fun f => jsEndsWith f (".webp")) ≠ []) :
    ((sortByFrameNumber rec.frameFiles).filter (isValidFrameFile fsEnv) ≠ [] →
        (stopRecording fsEnv rec withAudio).encodeInvocations
          = [⟨(sortByFrameNumber rec.frameFiles).filter (isValidFrameFile fsEnv),
              effectiveWithAudio rec withAudio⟩]
        ∧ (∀ fi, fi ∈ ((stopRecording fsEnv rec withAudio).encodeInvocations.flatMap
              EncodeInvocation.frameInfos) → isValidFrameFile fsEnv fi = true)
        ∧ (stopRecording fsEnv rec withAudio).result ≠ StopResult.thrown noValidFramesMsg)
    ∧ ((sortByFrameNumber rec.frameFiles).filter (isValidFrameFile fsEnv) = [] →
        (stopRecording fsEnv rec withAudio).result = StopResult.thrown noValidFramesMsg
        ∧ (stopRecording fsEnv rec withAudio).recording.status = Status.failed
        ∧ (stopRecording fsEnv rec withAudio).recording.error = some noValidFramesMsg) := by
  have hne : fsEnv.framesDirExists ≠ false := by
    rw [hdir]
    exact fun hc => Bool.noConfusion hc
  constructor
  · intro hvalid
    rcases henc : fsEnv.encodeOk with _ | _
    · refine ⟨?_, ?_, ?_⟩
      · simp [stopRecording, h1, h2, hne, hlist, hvalid, henc]
      · intro fi hfi
        simp only [stopRecording, h1, h2, hne, hlist, hvalid, henc,
          if_neg, if_pos, ite_false, ite_true] at hfi
        simp [stopRecording, h1, h2, hne, hlist, hvalid, henc] at hfi
        exact hfi.2
      · simp [stopRecording, h1, h2, hne, hlist, hvalid, henc,
          noValidFramesMsg, encodeErrorMsg]
    · refine ⟨?_, ?_, ?_⟩
      · simp [stopRecording, h1, h2, hne, hlist, hvalid, henc]
      · intro fi hfi
        simp [stopRecording, h1, h2, hne, hlist, hvalid, henc] at hfi
        exact hfi.2
      · simp [stopRecording, h1, h2, hne, hlist, hvalid, henc]
  · intro hempty
    refine ⟨?_, ?_, ?_⟩ <;>
      simp [stopRecording, h1, h2, hne, hlist, hempty]

/-- Concrete instantiation of `C6_frame_filtering`: of two manifest
records, one stored at a missing path and one stored with positive size,
only the latter reaches the encoder; and a session whose single record is
zero-length on disk fails with the no-valid-frames error and ends
`failed`. -/
theorem C6_frame_filtering_witness :
    ((stopRecording
        ⟨true, ["frame_000000.webp"],
          fun p => if p = "good.webp" then some 9 else none, true⟩
        { exampleLiveRecording with frameFiles :=
            [⟨"gone.webp", 100, 0, 9⟩, ⟨"good.webp", 133, 1, 9⟩] }
        true).encodeInvocations
      = [⟨[⟨"good.webp", 133, 1, 9⟩], true⟩])
    ∧ ((stopRecording
        ⟨true, ["frame_000000.webp"],
          fun p => if p = "zero.webp" then some 0 else none, true⟩
        { exampleLiveRecording with frameFiles := [⟨"zero.webp", 100, 0, 9⟩] }
        true).result = StopResult.thrown noValidFramesMsg) := by
  constructor
  · have h := (C6_frame_filtering
      ⟨true, ["frame_000000.webp"],
        fun p => if p = "good.webp" then some 9 else none, true⟩
      { exampleLiveRecording with frameFiles :=
          [⟨"gone.webp", 100, 0, 9⟩, ⟨"good.webp", 133, 1, 9⟩] }
      true (by decide) (by decide) rfl (by decide)).1 (by decide)
    exact h.1
  · have h := (C6_frame_filtering
      ⟨true, ["frame_000000.webp"],
        fun p => if p = "zero.webp" then some 0 else none, true⟩
      { exampleLiveRecording with frameFiles := [⟨"zero.webp", 100, 0, 9⟩] }
      true (by decide) (by decide) rfl (by decide)).2 (by decide)
    exact h.1

/-- C10: a stop called with `withAudio = false` on an active recording
that holds at least one stored audio chunk and whose `options.withAudio`
is not false proceeds as if `withAudio = true`: the override flips the
effective flag, the encode invocation receives `withAudio = true`, and
the encoder's audio gate (merge-then-mux) is open. -/
theorem C10_with_audio_override (fsEnv : StopFS) (rec : Recording)
    (h1 : rec.status ≠ Status.stopping) (h2 : rec.status ≠ Status.completed)
    (hdir : fsEnv.framesDirExists = true)
    (hlist : fsEnv.framesDirListing.filter (fun f => jsEndsWith f (".webp")) ≠ [])
    (hvalid : (sortByFrameNumber rec.frameFiles).filter (isValidFrameFile fsEnv) ≠ [])
    (haudio : rec.audioFiles ≠ []) (hopt : rec.optionsWithAudio = true) :
    effectiveWithAudio rec false = true
    ∧ (stopRecording fsEnv rec false).encodeInvocations
        = [⟨(sortByFrameNumber rec.frameFiles).filter (isValidFrameFile fsEnv), true⟩]
    ∧ shouldProcessAudio rec true = true := by
  have heff : effectiveWithAudio rec false = true := by
    have hcond : (false : Bool) = false ∧ rec.audioFiles ≠ []
        ∧ rec.optionsWithAudio ≠ false := by
      refine ⟨rfl, haudio, ?_⟩
      rw [hopt]
      exact fun hc => Bool.noConfusion hc
    simp [effectiveWithAudio, hcond]
  have hne : fsEnv.framesDirExists ≠ false := by
    rw [hdir]
    exact fun hc => Bool.noConfusion hc
  refine ⟨heff, ?_, ?_⟩
  · rcases henc : fsEnv.encodeOk with _ | _ <;>
      simp [stopRecording, h1, h2, hne, hlist, hvalid, henc, heff]
  · simp [shouldProcessAudio, hopt, List.isEmpty_iff, haudio]

/-- Concrete instantiation of `C10_with_audio_override`: stopping the
live example session (one good frame, one stored audio chunk,
`options.withAudio = true`) with `withAudio = false` still hands
`withAudio = true` to the encoder. -/
theorem C10_with_audio_override_witness :
    effectiveWithAudio
        { exampleLiveRecording with
            frameFiles := [⟨"good.webp", 100, 0, 9⟩],
            audioFiles := [⟨"audio_000000_100.webm", 100, 0⟩] } false = true
    ∧ (stopRecording
        ⟨true, ["frame_000000.webp"], fun _ => some 9, true⟩
        { exampleLiveRecording with
            frameFiles := [⟨"good.webp", 100, 0, 9⟩],
            audioFiles := [⟨"audio_000000_100.webm", 100, 0⟩] }
        false).encodeInvocations
      = [⟨[⟨"good.webp", 100, 0, 9⟩], true⟩]
    ∧ shouldProcessAudio
        { exampleLiveRecording with
            frameFiles := [⟨"good.webp", 100, 0, 9⟩],
            audioFiles := [⟨"audio_000000_100.webm", 100, 0⟩] } true = true :=
  C10_with_audio_override
    ⟨true, ["frame_000000.webp"], fun _ => some 9, true⟩
    { exampleLiveRecording with
        frameFiles := [⟨"good.webp", 100, 0, 9⟩],
        audioFiles := [⟨"audio_000000_100.webm", 100, 0⟩] }
    (by decide) (by decide) rfl (by decide) (by decide) (by decide) rfl

/-! ## Session start and the one-active-session guard (C7)

`startUIRecording` (lines 785-858): after the ffmpeg-availability check,
the guard of lines 790-794 rejects only when the current
`activeRecording` has status `recording` or `paused`; otherwise a fresh
session is created (synchronously passing through `initializing` to
`recording`), stored in the manager's map, and made active. -/

/-- The per-room manager state the start path touches.  `recordings`
models the values of the `this.recordings` map in insertion order. -/
structure ManagerState where
  roomId : String
  isFFmpegAvailable : Bool
  recordings : List Recording
  activeRecording : Option Recording
  frameCounter : ℕ

/-- The zeroed statistics block of a fresh session (lines 825-836). -/
def initialStats : RecordingStats :=
  ⟨0, 0, 0, 0, 0, 0, none, none⟩

/-- `options.fps || 30` (line 818): a missing or zero (falsy) fps falls
back to 30. -/
def jsFpsOrDefault (fps : Option ℤ) : ℤ :=
  match fps with
  | some f => if f = 0 then 30 else f
  | none => 30

/-- The fresh session object built by `startUIRecording` (lines
801-847), after its synchronous `initializing → recording` transition.
In this version `options.withAudio` is hard-coded to true (line 823). -/
def freshRecording (roomId : String) (fps : Option ℤ) : Recording :=
  { roomId := roomId, status := Status.recording,
    optionsFps := jsFpsOrDefault fps, optionsWithAudio := true,
    stats := initialStats, frameFiles := [], audioFiles := [],
    error := none }

/-- How a `startUIRecording` call returns. -/
inductive StartResult where
  | thrown (msg : String)
  | started (rec : Recording)
deriving DecidableEq, Repr

/-- Error message of the encoder-availability check (line 787). -/
def ffmpegUnavailableMsg : String := "FFmpeg is not available"

/-- Error message of the active-session guard (line 793). -/
def alreadyActiveMsg (roomId : String) : String :=
  "Room " ++ roomId ++ " already has an active recording"

/-- The guard condition of lines 790-792: an `activeRecording` exists
and its status is `recording` or `paused`. -/
def hasBlockingActive (m : ManagerState) : Bool :=
  match m.activeRecording with
  | some r => decide (r.status = Status.recording) || decide (r.status = Status.paused)
  | none => false

/-- `startUIRecording` (lines 785-858). -/
def startUIRecording (m : ManagerState) (fps : Option ℤ) : ManagerState × StartResult :=
  if m.isFFmpegAvailable = false then
    (m, StartResult.thrown ffmpegUnavailableMsg)
  else if hasBlockingActive m then
    (m, StartResult.thrown (alreadyActiveMsg m.roomId))
  else
    let freshRec := freshRecording m.roomId fps
    ({ m with
        recordings := m.recordings ++ [freshRec],
        activeRecording := some freshRec,
        frameCounter := 0 },
     StartResult.started freshRec)

/-- Modelled from the spec (§3, §4.2 terminology): a session status is
non-terminal when it is `recording`, `paused` or `stopping`. -/
def nonTerminalStatus (s : Status) : Bool :=
  decide (s = Status.recording) || decide (s = Status.paused)
    || decide (s = Status.stopping)

/-- A session caught mid-stop, used as the concrete start-during-stopping
scenario. -/
def exampleStoppingRecording : Recording :=
  { roomId := "room1", status := Status.stopping, optionsFps := 30,
    optionsWithAudio := true,
    stats := ⟨10, 0, 10, 3, 0, 0, some 0, some 300⟩,
    frameFiles := [⟨"frames/frame_000000.webp", 0, 0, 9⟩],
    audioFiles := [], error := none }

/-- A manager whose active session is `stopping`. -/
def exampleManagerStopping : ManagerState :=
  { roomId := "room1", isFFmpegAvailable := true,
    recordings := [exampleStoppingRecording],
    activeRecording := some exampleStoppingRecording, frameCounter := 10 }

/-- C7 as stated is false: with the active session in the non-terminal
state `stopping`, a start request is not rejected — it creates and
activates a second session, after which the manager holds two sessions
with non-terminal status. -/
theorem C7_start_during_stopping_counterexample :
    nonTerminalStatus exampleStoppingRecording.status = true
    ∧ (startUIRecording exampleManagerStopping (some 30)).2
        = StartResult.started (freshRecording ("room1") (some 30))
    ∧ (startUIRecording exampleManagerStopping (some 30)).2
        ≠ StartResult.thrown (alreadyActiveMsg ("room1"))
    ∧ ((startUIRecording exampleManagerStopping (some 30)).1.recordings.countP
        fun r => nonTerminalStatus r.status) = 2 := by
  refine ⟨rfl, rfl, ?_, rfl⟩
  intro hcontra
  have h : (startUIRecording exampleManagerStopping (some 30)).2
      = StartResult.started (freshRecording ("room1") (some 30)) := rfl
  rw [h] at hcontra
  exact StartResult.noConfusion hcontra

/-- C7 amended: with the encoder available, a start request is rejected
exactly when the active session's status is `recording` or `paused`; a
start issued while the active session is `stopping` succeeds and appends
a second, fresh non-terminal session to the manager, so the
one-non-terminal-session-per-room invariant does not hold across an
in-flight stop. -/
theorem C7_start_guard (m : ManagerState) (fps : Option ℤ)
    (hff : m.isFFmpegAvailable = true) :
    (∀ r, m.activeRecording = some r →
        (r.status = Status.recording ∨ r.status = Status.paused) →
        startUIRecording m fps = (m, StartResult.thrown (alreadyActiveMsg m.roomId)))
    ∧ (∀ r, m.activeRecording = some r → r.status = Status.stopping →
        startUIRecording m fps
          = ({ m with
                recordings := m.recordings ++ [freshRecording m.roomId fps],
                activeRecording := some (freshRecording m.roomId fps),
                frameCounter := 0 },
             StartResult.started (freshRecording m.roomId fps))) := by
  have hne : m.isFFmpegAvailable ≠ false := by
    rw [hff]
    exact fun hc => Bool.noConfusion hc
  constructor
  · intro r hr hstat
    have hblock : hasBlockingActive m = true := by
      rcases hstat with h | h <;> simp [hasBlockingActive, hr, h]
    simp [startUIRecording, hne, hblock]
  · intro r hr hstat
    have hblock : hasBlockingActive m = false := by
      simp [hasBlockingActive, hr, hstat]
    simp [startUIRecording, hne, hblock]

/-- Concrete instantiation of `C7_start_guard`: a manager with a `paused`
active session rejects a start, and the mid-stop example manager accepts
one. -/
theorem C7_start_guard_witness :
    startUIRecording
        { roomId := "room1", isFFmpegAvailable := true,
          recordings := [examplePausedRecording],
          activeRecording := some examplePausedRecording, frameCounter := 5 }
        (some 30)
      = ({ roomId := "room1", isFFmpegAvailable := true,
           recordings := [examplePausedRecording],
           activeRecording := some examplePausedRecording, frameCounter := 5 },
         StartResult.thrown (alreadyActiveMsg ("room1")))
    ∧ startUIRecording exampleManagerStopping (some 30)
      = ({ exampleManagerStopping with
            recordings := exampleManagerStopping.recordings
              ++ [freshRecording exampleManagerStopping.roomId (some 30)],
            activeRecording :=
              some (freshRecording exampleManagerStopping.roomId (some 30)),
            frameCounter := 0 },
         StartResult.started (freshRecording exampleManagerStopping.roomId (some 30))) :=
  ⟨(C7_start_guard
      { roomId := "room1", isFFmpegAvailable := true,
        recordings := [examplePausedRecording],
        activeRecording := some examplePausedRecording, frameCounter := 5 }
      (some 30) rfl).1 examplePausedRecording rfl (Or.inr rfl),
   (C7_start_guard exampleManagerStopping (some 30) rfl).2
      exampleStoppingRecording rfl rfl⟩

end MeetingStorage
